import Mathlib

/-!
Verification of the particle choreography engine of the treetree repository.

The repository carries two generations of the same application:
the typed pipeline (src/components/HandTracker.tsx, src/unnamed/part_000,
first half of src/geometryService.ts) and an embedded single-file variant
(second half of src/geometryService.ts, with processGestures and the
Particle class).  Every definition below is a shallow embedding of one of
those source functions; randomness is made explicit by passing each random
draw (a real number in the unit interval) as an argument, and JavaScript
number arithmetic is modelled over the real numbers.
-/

namespace TreeTree

/-- The display mode enum, src/unnamed/part_000 types (TREE, SCATTER, ZOOM)
and the STATE.mode strings of the embedded app (TREE, SCATTER, FOCUS).
The spec names the third mode FOCUS; it is the ZOOM mode of the typed files. -/
inductive Mode
  | TREE
  | SCATTER
  | FOCUS
deriving DecidableEq

/-- The gesture enum of src/unnamed/part_000 types (HandGesture). -/
inductive Gesture
  | UNKNOWN
  | FIST
  | OPEN_PALM
  | PINCH
deriving DecidableEq

/-- One classified hand sample as consumed by the mode machine:
present flag plus the discrete gesture. -/
structure GestureSample where
  present : Bool
  gesture : Gesture
deriving DecidableEq

/-- The mutable mode/focus part of the STATE object of the embedded app
(src/geometryService.ts line 122): current mode plus the locked focus
target, modelled as an identity handle (index) into the photo registry. -/
structure GState where
  mode : Mode
  focusTarget : Option Nat
deriving DecidableEq

/-- Mode transition of processGestures (src/geometryService.ts lines 559-589)
on one classified sample.  photos is the list of PHOTO particle ids in the
registry, pickIdx the random index drawn by Math.floor(Math.random()*len).
The code touches mode/focus only when a hand is present; on PINCH it does
nothing if the mode is already FOCUS, otherwise it sets FOCUS and, only when
the photo registry is nonempty, overwrites the focus target with the randomly
picked photo; FIST sets TREE and clears the target; OPEN_PALM sets SCATTER
and clears the target; the dead zone (UNKNOWN) falls through all branches. -/
def stepMode (photos : List Nat) (pickIdx : Nat) (s : GState)
    (samp : GestureSample) : GState :=
  if samp.present then
    match samp.gesture with
    | .PINCH =>
        if s.mode = .FOCUS then s
        else
          { mode := .FOCUS
            focusTarget :=
              match photos[pickIdx]? with
              | some pid => some pid
              | none => s.focusTarget }
    | .FIST => { mode := .TREE, focusTarget := none }
    | .OPEN_PALM => { mode := .SCATTER, focusTarget := none }
    | .UNKNOWN => s
  else s

/-- Runs the mode machine over a list of samples, returning the state after
each sample, in order. -/
def runModes (photos : List Nat) (pickIdx : Nat) :
    GState → List GestureSample → List GState
  | _, [] => []
  | s, g :: rest =>
      let s2 := stepMode photos pickIdx s g
      s2 :: runModes photos pickIdx s2 rest

/-- A 2-D hand landmark in normalized image coordinates. -/
structure Landmark where
  x : ℝ
  y : ℝ

/-- A 3-D vector, mirroring THREE.Vector3. -/
structure Vec3 where
  x : ℝ
  y : ℝ
  z : ℝ

noncomputable section

/-- Math.hypot on two components: the euclidean length of (dx, dy). -/
def hypot (dx dy : ℝ) : ℝ := Real.sqrt (dx ^ 2 + dy ^ 2)

/-- THREE.MathUtils.lerp: x + (y - x) * t. -/
def lerp1 (x y t : ℝ) : ℝ := x + (y - x) * t

/-- THREE.Vector3.lerp: componentwise this += (v - this) * alpha. -/
def lerpVec (p v : Vec3) (alpha : ℝ) : Vec3 :=
  ⟨p.x + (v.x - p.x) * alpha, p.y + (v.y - p.y) * alpha,
    p.z + (v.z - p.z) * alpha⟩

/-- Euclidean distance between two Vec3 values. -/
def distV (p q : Vec3) : ℝ :=
  Real.sqrt ((p.x - q.x) ^ 2 + (p.y - q.y) ^ 2 + (p.z - q.z) ^ 2)

/-- Euclidean norm of a Vec3. -/
def normV (p : Vec3) : ℝ := Real.sqrt (p.x ^ 2 + p.y ^ 2 + p.z ^ 2)

/-- Landmark lookup, index i of the landmark list.  JavaScript indexing
returns undefined out of range; total code paths that reach this function
only do so once all required indices are in range, so the default value is
never observed there. -/
def lmGet (lm : List Landmark) (i : Nat) : Landmark := lm.getD i ⟨0, 0⟩

/-- The pinch distance of HandTracker.detect (src/components/HandTracker.tsx
lines 54-57): distance from thumb tip (4) to index tip (8). -/
def pinchDistOf (lm : List Landmark) : ℝ :=
  hypot ((lmGet lm 4).x - (lmGet lm 8).x) ((lmGet lm 4).y - (lmGet lm 8).y)

/-- Distance from fingertip i to the wrist (0), HandTracker.tsx lines 60-65. -/
def tipDist (lm : List Landmark) (i : Nat) : ℝ :=
  hypot ((lmGet lm i).x - (lmGet lm 0).x) ((lmGet lm i).y - (lmGet lm 0).y)

/-- The mean fingertip-to-wrist distance over tips 8, 12, 16, 20
(HandTracker.tsx lines 60-66). -/
def spreadOf (lm : List Landmark) : ℝ :=
  (tipDist lm 8 + tipDist lm 12 + tipDist lm 16 + tipDist lm 20) / 4

/-- The threshold cascade of HandTracker.detect (lines 68-76): pinch
threshold 0.05, fist threshold 0.25, open threshold 0.35. -/
def classifyHand (pinchDist avgDistToWrist : ℝ) : Gesture :=
  if pinchDist < 0.05 then .PINCH
  else if avgDistToWrist < 0.25 then .FIST
  else if avgDistToWrist > 0.35 then .OPEN_PALM
  else .UNKNOWN

/-- The threshold cascade of processGestures (src/geometryService.ts lines
573-585), identical except that its open threshold is 0.4. -/
def classifyPG (pinchDist avgDist : ℝ) : Gesture :=
  if pinchDist < 0.05 then .PINCH
  else if avgDist < 0.25 then .FIST
  else if avgDist > 0.4 then .OPEN_PALM
  else .UNKNOWN

/-- The classifier output record of src/unnamed/part_000 types (HandState). -/
structure HandState where
  gesture : Gesture
  px : ℝ
  py : ℝ
  isPresent : Bool

/-- HandTracker.detect (src/components/HandTracker.tsx lines 50-95) on one
landmark result: a list of hands, each a list of points.  With no hand the
absent record is emitted.  With a hand, the code dereferences landmark
indices 0, 4, 8, 12, 16 and 20 unguarded; when the hand list is shorter
than 21 points index 20 (and possibly others) is undefined and the member
access throws a TypeError, modelled by the error branch.  All six indices
exist exactly when the list has at least 21 points. -/
def detect (hands : List (List Landmark)) : Except Unit HandState :=
  match hands with
  | [] => .ok ⟨.UNKNOWN, 0, 0, false⟩
  | lm :: _ =>
      if 21 ≤ lm.length then
        .ok ⟨classifyHand (pinchDistOf lm) (spreadOf lm),
          ((lmGet lm 0).x - 0.5) * (-2), ((lmGet lm 0).y - 0.5) * (-2), true⟩
      else .error ()

/-- The pointer update of processGestures (src/geometryService.ts lines
562-564): STATE.hand.x = (lm[9].x - 0.5) * 2 and STATE.hand.y =
(lm[9].y - 0.5) * 2 — landmark 9 (a palm-center landmark), factor +2, and
no mirror inversion, unlike the wrist-based inverted map of
HandTracker.detect. -/
def handPointerPG (lm : List Landmark) : ℝ × ℝ :=
  (((lmGet lm 9).x - 0.5) * 2, ((lmGet lm 9).y - 0.5) * 2)

/-- CONFIG.TREE_HEIGHT (src/constants.ts). -/
def TREE_HEIGHT : ℝ := 14

/-- CONFIG.TREE_RADIUS (src/constants.ts). -/
def TREE_RADIUS : ℝ := 5

/-- CONFIG.SCATTER_RADIUS (src/constants.ts). -/
def SCATTER_RADIUS : ℝ := 8

/-- THREE.MathUtils.randFloat(low, high) with its uniform draw u in [0, 1)
made explicit: low + u * (high - low). -/
def randFloat (low high u : ℝ) : ℝ := low + u * (high - low)

/-- Math.cbrt restricted to nonnegative arguments (the only ones the code
feeds it): the real cube root. -/
def cbrt (x : ℝ) : ℝ := x ^ ((1 : ℝ) / 3)

/-- calculateTreePosition (src/geometryService.ts lines 8-15): the cone
spiral.  y climbs linearly with index/total, the radius shrinks linearly to
zero at the apex (computed from y exactly as in the source), the angle steps
by 0.5 per index. -/
def calculateTreePosition (index total : Nat) : Vec3 :=
  let y := ((index : ℝ) / (total : ℝ)) * TREE_HEIGHT - TREE_HEIGHT / 2
  let radius := TREE_RADIUS * (1 - (y + TREE_HEIGHT / 2) / TREE_HEIGHT)
  let angle := (index : ℝ) * 0.5
  ⟨Real.cos angle * radius, y, Real.sin angle * radius⟩

/-- calculateScatterPosition (src/geometryService.ts lines 18-27) with its
three uniform draws explicit: theta = randFloat(0, 2π) from u1, phi =
randFloat(0, π) from u2 (phi itself uniform), r = SCATTER_RADIUS * cbrt of
randFloat(0, 1) from u3. -/
def calculateScatterPosition (u1 u2 u3 : ℝ) : Vec3 :=
  let theta := randFloat 0 (Real.pi * 2) u1
  let phi := randFloat 0 Real.pi u2
  let r := SCATTER_RADIUS * cbrt (randFloat 0 1 u3)
  ⟨r * Real.sin phi * Real.cos theta, r * Real.sin phi * Real.sin theta,
    r * Real.cos phi⟩

/-- Modelled from the spec (refinement comparison only): the shell sampling
the spec describes for scatterPosition — theta uniform from u1, cos(phi)
uniform in [-1, 1] from u2, and the radius a cube-root transform of a
uniform variable scaled into [minRadius, maxRadius] from u3, so that volume
is uniform. -/
def scatterPositionSpec (minRadius maxRadius u1 u2 u3 : ℝ) : Vec3 :=
  let theta := 2 * Real.pi * u1
  let cosPhi := 2 * u2 - 1
  let sinPhi := Real.sqrt (1 - cosPhi ^ 2)
  let r := cbrt (minRadius ^ 3 + u3 * (maxRadius ^ 3 - minRadius ^ 3))
  ⟨r * sinPhi * Real.cos theta, r * sinPhi * Real.sin theta, r * cosPhi⟩

/-- The ornament kind tags of src/geometryService.ts generateParticles. -/
inductive OrnKind
  | SPHERE
  | CUBE
  | CANDY
deriving DecidableEq

/-- The color constants of src/constants.ts. -/
inductive Color
  | MATTE_GREEN
  | METALLIC_GOLD
  | CHRISTMAS_RED
  | WHITE
deriving DecidableEq

/-- ParticleData of src/unnamed/part_000 types; the string id p-i is kept as
the numeric index. -/
structure ParticleData where
  id : Nat
  initialPos : Vec3
  scatterPos : Vec3
  color : Color
  ptype : OrnKind
  scale : ℝ

/-- PhotoData of src/unnamed/part_000 types; the texture url is dropped
(not inspected by the core). -/
structure PhotoData where
  id : Nat
  initialPos : Vec3
  scatterPos : Vec3

/-- The random draws one loop iteration of generateParticles consumes:
the kind selector Math.random(), the scale draw of randFloat, and the three
draws of calculateScatterPosition. -/
structure Draws where
  randomVal : ℝ
  scaleU : ℝ
  u1 : ℝ
  u2 : ℝ
  u3 : ℝ

/-- One loop body of generateParticles (src/geometryService.ts lines 31-73):
kind/color/scale by the categorical thresholds 0.50 / 0.75 / 0.90, tree
target from calculateTreePosition, scatter target from
calculateScatterPosition. -/
def mkParticle (i count : Nat) (d : Draws) : ParticleData :=
  let tcs : OrnKind × Color × ℝ :=
    if d.randomVal < 0.50 then (.SPHERE, .MATTE_GREEN, randFloat 0.15 0.35 d.scaleU)
    else if d.randomVal < 0.75 then (.SPHERE, .METALLIC_GOLD, randFloat 0.2 0.4 d.scaleU)
    else if d.randomVal < 0.90 then (.CUBE, .CHRISTMAS_RED, randFloat 0.2 0.45 d.scaleU)
    else (.CANDY, .WHITE, randFloat 0.1 0.2 d.scaleU)
  { id := i
    initialPos := calculateTreePosition i count
    scatterPos := calculateScatterPosition d.u1 d.u2 d.u3
    color := tcs.2.1
    ptype := tcs.1
    scale := tcs.2.2 }

/-- generateParticles (src/geometryService.ts lines 29-76), with the random
stream made explicit as one Draws record per index. -/
def generateParticles (count : Nat) (ds : Nat → Draws) : List ParticleData :=
  (List.range count).map fun i => mkParticle i count (ds i)

/-- Scalar multiplication of a Vec3 (THREE.Vector3.multiplyScalar). -/
def smulV (a : ℝ) (p : Vec3) : Vec3 := ⟨a * p.x, a * p.y, a * p.z⟩

/-- processPhotos (src/geometryService.ts lines 78-94) for n photo urls:
photo i is interleaved at tree index floor((i / n) * 450) (the natural
division i * 450 / n), its tree position pushed outward by 1.3, and its
scatter target drawn like the ornaments.  CONFIG.PARTICLE_COUNT = 450. -/
def processPhotos (n : Nat) (ds : Nat → Draws) : List PhotoData :=
  (List.range n).map fun i =>
    let treeIndex := i * 450 / n
    { id := i
      initialPos := smulV 1.3 (calculateTreePosition treeIndex 450)
      scatterPos := calculateScatterPosition (ds i).u1 (ds i).u2 (ds i).u3 }

/-- The clamped maximum radius of Particle.calculatePositions
(src/geometryService.ts lines 168-169): rMax = treeRadius * (1 - t) floored
at 0.5.  The embedded app uses CONFIG.particles.treeRadius = 8. -/
def rMaxClamped (t : ℝ) : ℝ :=
  if 8 * (1 - t) < 0.5 then 0.5 else 8 * (1 - t)

/-- The tree half of Particle.calculatePositions (src/geometryService.ts
lines 161-172), the randomized variant: t is a power-biased uniform draw,
y = t * treeHeight - treeHeight / 2 with treeHeight = 24, the radius is the
clamped rMax jittered by a factor in [0.8, 1.2], and a random phase in
[0, π) is added to the spiral angle. -/
def calcPosTree (tU phaseU jitterU : ℝ) : Vec3 :=
  let t := tU ^ (0.8 : ℝ)
  let y := t * 24 - 12
  let rMax := rMaxClamped t
  let angle := t * 50 * Real.pi + phaseU * Real.pi
  let r := rMax * (0.8 + jitterU * 0.4)
  ⟨Real.cos angle * r, y, Real.sin angle * r⟩

/-- The scatter half of Particle.calculatePositions (src/geometryService.ts
lines 174-182): the radius is linear in its draw (12+20u for dust, 8+12u
otherwise), theta uniform, and phi = acos(2u - 1) so that cos phi is
uniform. -/
def calcPosScatter (isDust : Bool) (sU thetaU phiU : ℝ) : Vec3 :=
  let rScatter := if isDust then 12 + sU * 20 else 8 + sU * 12
  let theta := thetaU * (Real.pi * 2)
  let phi := Real.arccos (2 * phiU - 1)
  ⟨rScatter * Real.sin phi * Real.cos theta,
    rScatter * Real.sin phi * Real.sin theta, rScatter * Real.cos phi⟩

/-- The per-particle static data of the embedded Particle class
(src/geometryService.ts lines 130-159). -/
structure Particle where
  ptype : String
  isDust : Bool
  posTree : Vec3
  posScatter : Vec3
  baseScale : ℝ
  spinSpeed : Vec3
  meshId : ℝ

/-- The mutable transform the animator owns. -/
structure Transform where
  pos : Vec3
  rot : Vec3
  scl : Vec3

/-- Particle.update (src/geometryService.ts lines 185-233).  External
quantities are passed in: isTarget is the identity test mesh ===
focusTargetMesh, focusPoint the camera-relative point transformed into the
group frame (lines 191-193), lookAtRot the orientation produced by
mesh.lookAt(camera.position), elapsed the clock time.  Position eases toward
the mode target at lerpSpeed * dt (5 for the focused particle, else 2);
rotation tumbles in SCATTER, decays X/Z and spins Y in TREE, is left alone
otherwise, and is overridden by the look-at for the focused particle; the
scale target is the dust pulse (0 in TREE), 2.5x for photos in SCATTER,
4.5 / 0.8x in FOCUS, else baseScale, eased at 4 * dt. -/
def Particle.update (p : Particle) (tr : Transform) (dt : ℝ) (mode : Mode)
    (isTarget : Bool) (focusPoint lookAtRot : Vec3) (elapsed : ℝ) :
    Transform :=
  let target :=
    match mode with
    | .TREE => p.posTree
    | .SCATTER => p.posScatter
    | .FOCUS => if isTarget then focusPoint else p.posScatter
  let lerpSpeed : ℝ := if mode = .FOCUS ∧ isTarget = true then 5 else 2
  let pos := lerpVec tr.pos target (lerpSpeed * dt)
  let rot :=
    if mode = .SCATTER then
      ⟨tr.rot.x + p.spinSpeed.x * dt, tr.rot.y + p.spinSpeed.y * dt,
        tr.rot.z + p.spinSpeed.z * dt⟩
    else if mode = .TREE then
      ⟨lerp1 tr.rot.x 0 dt, tr.rot.y + 0.5 * dt, lerp1 tr.rot.z 0 dt⟩
    else tr.rot
  let rot2 := if mode = .FOCUS ∧ isTarget = true then lookAtRot else rot
  let s :=
    if p.isDust then
      if mode = .TREE then 0
      else p.baseScale * (0.8 + 0.4 * Real.sin (elapsed * 4 + p.meshId))
    else if mode = .SCATTER ∧ p.ptype = "PHOTO" then p.baseScale * 2.5
    else if mode = .FOCUS then (if isTarget then 4.5 else p.baseScale * 0.8)
    else p.baseScale
  let scl := lerpVec tr.scl ⟨s, s, s⟩ (4 * dt)
  ⟨pos, rot2, scl⟩

/-- n repetitions of the position easing step toward a fixed target at a
fixed interpolation factor: the position half of Particle.update (line 201)
and of the InstancedGroup frame callback (src/unnamed/part_000 line 79)
with mode, targets and dt held constant. -/
def posIter (target : Vec3) (alpha : ℝ) : Nat → Vec3 → Vec3
  | 0, p => p
  | n + 1, p => posIter target alpha n (lerpVec p target alpha)

/-- A 21-point hand exercising the classifier dead zone: wrist at the image
center, thumb tip pulled 0.3 to the left of the fingertips, all four
fingertips 0.3 to the right of the wrist, every other landmark at the
wrist. -/
def deadHand : List Landmark :=
  [⟨0.5, 0.5⟩, ⟨0.5, 0.5⟩, ⟨0.5, 0.5⟩, ⟨0.5, 0.5⟩, ⟨0.2, 0.5⟩,
   ⟨0.5, 0.5⟩, ⟨0.5, 0.5⟩, ⟨0.5, 0.5⟩, ⟨0.8, 0.5⟩,
   ⟨0.5, 0.5⟩, ⟨0.5, 0.5⟩, ⟨0.5, 0.5⟩, ⟨0.8, 0.5⟩,
   ⟨0.5, 0.5⟩, ⟨0.5, 0.5⟩, ⟨0.5, 0.5⟩, ⟨0.8, 0.5⟩,
   ⟨0.5, 0.5⟩, ⟨0.5, 0.5⟩, ⟨0.5, 0.5⟩, ⟨0.8, 0.5⟩]

/-- Hypot of a horizontal offset is its absolute value. -/
theorem hypot_zero_right (a : ℝ) : hypot a 0 = |a| := by
  simp [hypot, Real.sqrt_sq_eq_abs]

/-- Norm of a point in spherical coordinates is the absolute radius. -/
theorem normV_polar (r θ φ : ℝ) :
    normV ⟨r * Real.sin φ * Real.cos θ, r * Real.sin φ * Real.sin θ,
      r * Real.cos φ⟩ = |r| := by
  have h : (r * Real.sin φ * Real.cos θ) ^ 2 +
      (r * Real.sin φ * Real.sin θ) ^ 2 + (r * Real.cos φ) ^ 2 = r ^ 2 := by
    have hθ := Real.sin_sq_add_cos_sq θ
    have hφ := Real.sin_sq_add_cos_sq φ
    calc (r * Real.sin φ * Real.cos θ) ^ 2 + (r * Real.sin φ * Real.sin θ) ^ 2
          + (r * Real.cos φ) ^ 2
        = r ^ 2 * Real.sin φ ^ 2 * (Real.sin θ ^ 2 + Real.cos θ ^ 2)
          + r ^ 2 * Real.cos φ ^ 2 := by ring
      _ = r ^ 2 * (Real.sin φ ^ 2 + Real.cos φ ^ 2) := by rw [hθ]; ring
      _ = r ^ 2 := by rw [hφ]; ring
  rw [normV]
  simp only [h, Real.sqrt_sq_eq_abs]

/-- Norm of a point on a horizontal circle of radius r is the absolute r. -/
theorem xznorm_circle (r a : ℝ) :
    Real.sqrt ((Real.cos a * r) ^ 2 + (Real.sin a * r) ^ 2) = |r| := by
  have h : (Real.cos a * r) ^ 2 + (Real.sin a * r) ^ 2 = r ^ 2 := by
    have ha := Real.sin_sq_add_cos_sq a
    nlinarith [ha]
  rw [h, Real.sqrt_sq_eq_abs]

/-- One easing step scales the distance to the target by the factor
|1 - alpha|. -/
theorem distV_lerpVec (p t : Vec3) (a : ℝ) :
    distV (lerpVec p t a) t = |1 - a| * distV p t := by
  have hx : (lerpVec p t a).x - t.x = (1 - a) * (p.x - t.x) := by
    simp [lerpVec]; ring
  have hy : (lerpVec p t a).y - t.y = (1 - a) * (p.y - t.y) := by
    simp [lerpVec]; ring
  have hz : (lerpVec p t a).z - t.z = (1 - a) * (p.z - t.z) := by
    simp [lerpVec]; ring
  rw [distV, hx, hy, hz, distV]
  have hsum : ((1 - a) * (p.x - t.x)) ^ 2 + ((1 - a) * (p.y - t.y)) ^ 2 +
      ((1 - a) * (p.z - t.z)) ^ 2 =
      (1 - a) ^ 2 * ((p.x - t.x) ^ 2 + (p.y - t.y) ^ 2 + (p.z - t.z) ^ 2) := by
    ring
  rw [hsum, Real.sqrt_mul (sq_nonneg _), Real.sqrt_sq_eq_abs]

/-- Distances are nonnegative. -/
theorem distV_nonneg (p q : Vec3) : 0 ≤ distV p q := Real.sqrt_nonneg _

/-- After n easing steps the distance to the target is the initial distance
scaled by |1 - alpha| ^ n. -/
theorem distV_posIter (t : Vec3) (a : ℝ) (n : Nat) (p : Vec3) :
    distV (posIter t a n p) t = |1 - a| ^ n * distV p t := by
  induction n generalizing p with
  | zero => simp [posIter]
  | succ n ih =>
      rw [posIter, ih, distV_lerpVec]
      ring

/-- C1: for every classified hand sample consumed by the mode machine, a
PINCH sample sets mode FOCUS and selects a random PHOTO focus target only
when the prior mode was not FOCUS (a second consecutive PINCH changes
nothing, keeping the same target); FIST sets TREE and clears the target;
OPEN_PALM sets SCATTER and clears the target; UNKNOWN and absent samples
change nothing; and from TREE the sequence [PINCH, FIST, OPEN_PALM, UNKNOWN]
yields the mode sequence [FOCUS, TREE, SCATTER, SCATTER]. -/
theorem mode_machine_spec (photos : List Nat) (pickIdx : Nat) (s : GState)
    (pid : Nat) :
    (s.mode ≠ .FOCUS → photos[pickIdx]? = some pid →
      stepMode photos pickIdx s ⟨true, .PINCH⟩ = ⟨.FOCUS, some pid⟩)
    ∧ (s.mode = .FOCUS → stepMode photos pickIdx s ⟨true, .PINCH⟩ = s)
    ∧ stepMode photos pickIdx s ⟨true, .FIST⟩ = ⟨.TREE, none⟩
    ∧ stepMode photos pickIdx s ⟨true, .OPEN_PALM⟩ = ⟨.SCATTER, none⟩
    ∧ stepMode photos pickIdx s ⟨true, .UNKNOWN⟩ = s
    ∧ (∀ g, stepMode photos pickIdx s ⟨false, g⟩ = s)
    ∧ (runModes photos pickIdx ⟨.TREE, none⟩
        [⟨true, .PINCH⟩, ⟨true, .FIST⟩, ⟨true, .OPEN_PALM⟩,
          ⟨true, .UNKNOWN⟩]).map GState.mode
        = [.FOCUS, .TREE, .SCATTER, .SCATTER] := by
  refine ⟨?_, ?_, ?_, ?_, ?_, ?_, ?_⟩
  · intro h hp
    simp [stepMode, h, hp]
  · intro h
    simp [stepMode, h]
  · simp [stepMode]
  · simp [stepMode]
  · simp [stepMode]
  · intro g
    simp [stepMode]
  · cases hp : photos[pickIdx]? <;>
      simp [runModes, stepMode, hp]

/-- Witness for mode_machine_spec, at a registry holding photo 7: the first
PINCH from TREE locks photo 7, and a second PINCH leaves the state
untouched. -/
theorem mode_machine_spec_witness :
    stepMode [7] 0 ⟨.TREE, none⟩ ⟨true, .PINCH⟩ = ⟨.FOCUS, some 7⟩ ∧
    stepMode [7] 0 ⟨.FOCUS, some 7⟩ ⟨true, .PINCH⟩ = ⟨.FOCUS, some 7⟩ :=
  ⟨(mode_machine_spec [7] 0 ⟨.TREE, none⟩ 7).1 (by decide) (by decide),
    (mode_machine_spec [7] 0 ⟨.FOCUS, some 7⟩ 7).2.1 rfl⟩

/-- C7 counterexample: a 5-point hand sample is not treated like an absent
sample.  The classifier dereferences landmark index 8 (and 12, 16, 20),
which a 5-point list does not have, and the member access throws instead of
producing the absent record. -/
theorem short_sample_counterexample :
    detect [List.replicate 5 (⟨0.5, 0.5⟩ : Landmark)] = .error ()
    ∧ detect [List.replicate 5 (⟨0.5, 0.5⟩ : Landmark)] ≠
        .ok ⟨.UNKNOWN, 0, 0, false⟩ := by
  have h : detect [List.replicate 5 (⟨0.5, 0.5⟩ : Landmark)] = .error () := by
    simp [detect]
  refine ⟨h, ?_⟩
  rw [h]
  exact fun hc => Except.noConfusion hc

/-- C7 amended: a result with no hand at all yields the graceful absent
record (present false, UNKNOWN, pointer (0,0)); a hand with fewer than the
expected 21 points is not guarded and the classifier fails on the missing
landmark access; a hand with at least 21 points classifies normally. -/
theorem absent_vs_short (lm : List Landmark) (rest : List (List Landmark)) :
    detect [] = .ok ⟨.UNKNOWN, 0, 0, false⟩
    ∧ (lm.length < 21 → detect (lm :: rest) = .error ())
    ∧ (21 ≤ lm.length → ∃ g px py, detect (lm :: rest) = .ok ⟨g, px, py, true⟩) := by
  refine ⟨rfl, ?_, ?_⟩
  · intro h
    simp [detect, show ¬(21 ≤ lm.length) from by omega]
  · intro h
    refine ⟨classifyHand (pinchDistOf lm) (spreadOf lm),
      ((lmGet lm 0).x - 0.5) * (-2), ((lmGet lm 0).y - 0.5) * (-2), ?_⟩
    simp [detect, h]

/-- Witness for absent_vs_short: a 3-point hand errors out, a 21-point hand
is classified with present = true. -/
theorem absent_vs_short_witness :
    detect [List.replicate 3 (⟨0, 0⟩ : Landmark)] = .error ()
    ∧ ∃ g px py,
        detect [List.replicate 21 (⟨0, 0⟩ : Landmark)] = .ok ⟨g, px, py, true⟩ :=
  ⟨(absent_vs_short (List.replicate 3 ⟨0, 0⟩) []).2.1 (by simp),
    (absent_vs_short (List.replicate 21 ⟨0, 0⟩) []).2.2 (by simp)⟩

/-- C2: for every landmark sample with all 21 points the classifier applies
the strict priority cascade: PINCH whenever the thumb-to-index distance is
below 0.05 regardless of spread; otherwise FIST when the mean
fingertip-to-wrist spread is below 0.25; otherwise OPEN_PALM when the spread
exceeds the open threshold (0.35 in HandTracker, 0.4 in the embedded
processGestures); otherwise UNKNOWN — in particular spread 0.30 with pinch
distance at or above threshold lands in the dead zone and yields UNKNOWN
under both open thresholds. -/
theorem classifier_thresholds (lm : List Landmark)
    (rest : List (List Landmark)) (h21 : 21 ≤ lm.length) :
    detect (lm :: rest)
        = .ok ⟨classifyHand (pinchDistOf lm) (spreadOf lm),
            ((lmGet lm 0).x - 0.5) * (-2), ((lmGet lm 0).y - 0.5) * (-2), true⟩
    ∧ (pinchDistOf lm < 0.05 →
        classifyHand (pinchDistOf lm) (spreadOf lm) = .PINCH)
    ∧ (0.05 ≤ pinchDistOf lm → spreadOf lm < 0.25 →
        classifyHand (pinchDistOf lm) (spreadOf lm) = .FIST)
    ∧ (0.05 ≤ pinchDistOf lm → 0.25 ≤ spreadOf lm → 0.35 < spreadOf lm →
        classifyHand (pinchDistOf lm) (spreadOf lm) = .OPEN_PALM)
    ∧ (0.05 ≤ pinchDistOf lm → 0.25 ≤ spreadOf lm → spreadOf lm ≤ 0.35 →
        classifyHand (pinchDistOf lm) (spreadOf lm) = .UNKNOWN)
    ∧ (0.05 ≤ pinchDistOf lm → spreadOf lm = 0.30 →
        classifyHand (pinchDistOf lm) (spreadOf lm) = .UNKNOWN
        ∧ classifyPG (pinchDistOf lm) (spreadOf lm) = .UNKNOWN) := by
  refine ⟨by simp [detect, h21], ?_, ?_, ?_, ?_, ?_⟩
  · intro h1
    rw [classifyHand, if_pos h1]
  · intro h1 h2
    rw [classifyHand, if_neg (not_lt.mpr h1), if_pos h2]
  · intro h1 h2 h3
    rw [classifyHand, if_neg (not_lt.mpr h1), if_neg (not_lt.mpr h2), if_pos h3]
  · intro h1 h2 h3
    rw [classifyHand, if_neg (not_lt.mpr h1), if_neg (not_lt.mpr h2),
      if_neg (not_lt.mpr h3)]
  · intro h1 h2
    constructor
    · rw [classifyHand, if_neg (not_lt.mpr h1), h2]
      norm_num
    · rw [classifyPG, if_neg (not_lt.mpr h1), h2]
      norm_num

/-- Witness for classifier_thresholds at the concrete dead-zone hand: pinch
distance 0.6 is above threshold, spread is exactly 0.30, and the full
classifier run returns UNKNOWN with present = true. -/
theorem classifier_thresholds_witness :
    spreadOf deadHand = 0.30
    ∧ 0.05 ≤ pinchDistOf deadHand
    ∧ detect [deadHand]
        = .ok ⟨.UNKNOWN, ((lmGet deadHand 0).x - 0.5) * (-2),
            ((lmGet deadHand 0).y - 0.5) * (-2), true⟩ := by
  have htip : ∀ i, lmGet deadHand i = ⟨0.8, 0.5⟩ →
      tipDist deadHand i = 0.3 := by
    intro i hi
    rw [tipDist, hi, show lmGet deadHand 0 = ⟨0.5, 0.5⟩ from rfl]
    rw [show (0.8 : ℝ) - 0.5 = 0.3 from by norm_num,
      show (0.5 : ℝ) - 0.5 = 0 from by norm_num, hypot_zero_right,
      abs_of_nonneg (by norm_num : (0 : ℝ) ≤ 0.3)]
  have hspread : spreadOf deadHand = 0.30 := by
    rw [spreadOf, htip 8 rfl, htip 12 rfl, htip 16 rfl, htip 20 rfl]
    norm_num
  have hpinch : pinchDistOf deadHand = 0.6 := by
    rw [pinchDistOf, show lmGet deadHand 4 = ⟨0.2, 0.5⟩ from rfl,
      show lmGet deadHand 8 = ⟨0.8, 0.5⟩ from rfl]
    rw [show (0.2 : ℝ) - 0.8 = -0.6 from by norm_num,
      show (0.5 : ℝ) - 0.5 = 0 from by norm_num, hypot_zero_right, abs_neg,
      abs_of_nonneg (by norm_num : (0 : ℝ) ≤ 0.6)]
  have hge : 0.05 ≤ pinchDistOf deadHand := by rw [hpinch]; norm_num
  obtain ⟨hdet, _, _, _, _, hdead⟩ :=
    classifier_thresholds deadHand [] (by decide)
  refine ⟨hspread, hge, ?_⟩
  rw [hdet, (hdead hge hspread).1]

/-- C9 counterexample: the pointer output is not the wrist-based inverted
map for the embedded processGestures variant.  At a 21-point hand whose
points all sit at (0.1, 0.2), the variant emits x = (0.1 - 0.5) * 2 = -0.8
while the claimed formula (L0.x - 0.5) * -2 gives 0.8. -/
theorem pointer_variant_counterexample :
    (handPointerPG (List.replicate 21 (⟨0.1, 0.2⟩ : Landmark))).1
      ≠ ((lmGet (List.replicate 21 (⟨0.1, 0.2⟩ : Landmark)) 0).x - 0.5)
          * (-2) := by
  rw [show (handPointerPG (List.replicate 21 (⟨0.1, 0.2⟩ : Landmark))).1
      = ((0.1 : ℝ) - 0.5) * 2 from rfl,
    show lmGet (List.replicate 21 (⟨0.1, 0.2⟩ : Landmark)) 0
      = ⟨0.1, 0.2⟩ from rfl]
  norm_num

/-- C9 amended: for every sample with a hand present (at least 21 points)
the HandTracker classifier emits the wrist landmark 0 mapped from [0,1]
image space to [-1,1] display space with both axes inverted for the
mirrored feed, px = (L0.x - 0.5) * -2 and py = (L0.y - 0.5) * -2, present =
true, the wrist really being the first landmark and the map carrying [0,1]
into [-1,1]; the embedded processGestures variant instead reads palm-center
landmark 9 with factor +2 and no mirror inversion — the exact negative of
the claimed formula applied at landmark 9 — still carrying [0,1] into
[-1,1]. -/
theorem pointer_output_amended (lm : List Landmark)
    (rest : List (List Landmark)) (h21 : 21 ≤ lm.length) :
    (∃ g, detect (lm :: rest)
        = .ok ⟨g, ((lmGet lm 0).x - 0.5) * (-2),
            ((lmGet lm 0).y - 0.5) * (-2), true⟩)
    ∧ lm.head? = some (lmGet lm 0)
    ∧ ((0 : ℝ) ≤ (lmGet lm 0).x → (lmGet lm 0).x ≤ 1 →
        -1 ≤ ((lmGet lm 0).x - 0.5) * (-2)
        ∧ ((lmGet lm 0).x - 0.5) * (-2) ≤ 1)
    ∧ (handPointerPG lm).1 = ((lmGet lm 9).x - 0.5) * 2
    ∧ (handPointerPG lm).1 = -(((lmGet lm 9).x - 0.5) * (-2))
    ∧ ((0 : ℝ) ≤ (lmGet lm 9).x → (lmGet lm 9).x ≤ 1 →
        -1 ≤ (handPointerPG lm).1 ∧ (handPointerPG lm).1 ≤ 1) := by
  refine ⟨⟨classifyHand (pinchDistOf lm) (spreadOf lm),
      by simp [detect, h21]⟩, ?_, ?_, rfl, ?_, ?_⟩
  · match lm, h21 with
    | a :: l, _ => rfl
  · intro h0 h1
    constructor <;> nlinarith [h0, h1]
  · rw [show (handPointerPG lm).1 = ((lmGet lm 9).x - 0.5) * 2 from rfl]
    ring
  · intro h0 h1
    rw [show (handPointerPG lm).1 = ((lmGet lm 9).x - 0.5) * 2 from rfl]
    constructor <;> nlinarith [h0, h1]

/-- Witness for pointer_output_amended at a 21-point hand with every point
at (0.25, 0.75): the HandTracker pointer comes out at (0.5, -0.5) while
the processGestures variant x comes out at -0.5. -/
theorem pointer_output_amended_witness :
    (∃ g, detect [List.replicate 21 (⟨0.25, 0.75⟩ : Landmark)]
        = .ok ⟨g, 0.5, -0.5, true⟩)
    ∧ (handPointerPG (List.replicate 21 (⟨0.25, 0.75⟩ : Landmark))).1
        = -0.5 := by
  obtain ⟨⟨g, hdet⟩, _, _, hpg, _, _⟩ := pointer_output_amended
    (List.replicate 21 (⟨0.25, 0.75⟩ : Landmark)) [] (by simp)
  have hx : ((lmGet (List.replicate 21 (⟨0.25, 0.75⟩ : Landmark)) 0).x - 0.5)
      * (-2) = 0.5 := by
    rw [show lmGet (List.replicate 21 (⟨0.25, 0.75⟩ : Landmark)) 0
        = ⟨0.25, 0.75⟩ from rfl]
    norm_num
  have hy : ((lmGet (List.replicate 21 (⟨0.25, 0.75⟩ : Landmark)) 0).y - 0.5)
      * (-2) = -0.5 := by
    rw [show lmGet (List.replicate 21 (⟨0.25, 0.75⟩ : Landmark)) 0
        = ⟨0.25, 0.75⟩ from rfl]
    norm_num
  rw [hx, hy] at hdet
  refine ⟨⟨g, hdet⟩, ?_⟩
  rw [hpg, show lmGet (List.replicate 21 (⟨0.25, 0.75⟩ : Landmark)) 9
      = ⟨0.25, 0.75⟩ from rfl]
  norm_num

/-- Closed form of the cone spiral: the radius computed from y collapses to
TREE_RADIUS * (1 - index/total). -/
theorem calculateTreePosition_eq (i total : Nat) :
    calculateTreePosition i total =
      ⟨Real.cos ((i : ℝ) * 0.5) * (5 * (1 - (i : ℝ) / total)),
        ((i : ℝ) / total) * 14 - 7,
        Real.sin ((i : ℝ) * 0.5) * (5 * (1 - (i : ℝ) / total))⟩ := by
  simp only [calculateTreePosition, TREE_HEIGHT, TREE_RADIUS]
  congr 1 <;> ring

/-- C3: for 0 ≤ index < total the cone spiral has y = (index/total) * height
- height/2 and horizontal radius 5 * (1 - index/total) (height 14, radius 5
from CONFIG), which stays strictly positive on that domain so the apex never
collapses to a point; the randomized variant clamps its maximal radius at
the floor 0.5; and in the 10-particle scenario y is strictly increasing and
the radius strictly decreasing in the index. -/
theorem tree_formation (i total : Nat) (hi : i < total) :
    (calculateTreePosition i total).y = ((i : ℝ) / total) * 14 - 7
    ∧ Real.sqrt ((calculateTreePosition i total).x ^ 2
        + (calculateTreePosition i total).z ^ 2) = 5 * (1 - (i : ℝ) / total)
    ∧ 0 < 5 * (1 - (i : ℝ) / total)
    ∧ (∀ t : ℝ, 0.5 ≤ rMaxClamped t)
    ∧ (∀ a b : Nat, a < b → b < 10 →
        (calculateTreePosition a 10).y < (calculateTreePosition b 10).y
        ∧ Real.sqrt ((calculateTreePosition b 10).x ^ 2
            + (calculateTreePosition b 10).z ^ 2)
          < Real.sqrt ((calculateTreePosition a 10).x ^ 2
            + (calculateTreePosition a 10).z ^ 2)) := by
  have radius_eq : ∀ (a n : Nat), a < n →
      Real.sqrt ((calculateTreePosition a n).x ^ 2
        + (calculateTreePosition a n).z ^ 2) = 5 * (1 - (a : ℝ) / n) := by
    intro a n han
    have hn : (0 : ℝ) < (n : ℝ) := by
      exact_mod_cast Nat.lt_of_le_of_lt (Nat.zero_le a) han
    have hfr : (a : ℝ) / n < 1 := by
      rw [div_lt_one hn]
      exact_mod_cast han
    rw [calculateTreePosition_eq]
    have h := xznorm_circle (5 * (1 - (a : ℝ) / n)) ((a : ℝ) * 0.5)
    simp only at h ⊢
    rw [h, abs_of_pos (by linarith)]
  have hpos : ∀ (a n : Nat), a < n → 0 < 5 * (1 - (a : ℝ) / n) := by
    intro a n han
    have hn : (0 : ℝ) < (n : ℝ) := by
      exact_mod_cast Nat.lt_of_le_of_lt (Nat.zero_le a) han
    have hfr : (a : ℝ) / n < 1 := by
      rw [div_lt_one hn]
      exact_mod_cast han
    linarith
  refine ⟨by rw [calculateTreePosition_eq], radius_eq i total hi,
    hpos i total hi, ?_, ?_⟩
  · intro t
    rw [rMaxClamped]
    split
    · exact le_refl _
    · linarith [not_lt.mp (by assumption : ¬(8 * (1 - t) < 0.5))]
  · intro a b hab hb10
    have hcast : (a : ℝ) < (b : ℝ) := by exact_mod_cast hab
    have ha10 : a < 10 := Nat.lt_trans hab hb10
    constructor
    · rw [calculateTreePosition_eq, calculateTreePosition_eq]
      simp only
      have : (a : ℝ) / 10 < (b : ℝ) / 10 := by linarith
      linarith
    · rw [radius_eq a 10 ha10, radius_eq b 10 hb10]
      have : (a : ℝ) / 10 < (b : ℝ) / 10 := by linarith
      linarith

/-- Witness for tree_formation: particle 3 of 10 sits at height 14 * 3/10 -
7, and in the scenario y strictly grows from index 2 to index 5. -/
theorem tree_formation_witness :
    (calculateTreePosition 3 10).y = ((3 : ℝ) / 10) * 14 - 7
    ∧ (calculateTreePosition 2 10).y < (calculateTreePosition 5 10).y := by
  obtain ⟨hy, _, _, _, hsc⟩ := tree_formation 3 10 (by norm_num)
  exact ⟨hy, (hsc 2 5 (by norm_num) (by norm_num)).1⟩

/-- The norm of a scatter sample is SCATTER_RADIUS times the cube root of
its radius draw. -/
theorem normV_calculateScatterPosition (u1 u2 u3 : ℝ) (h0 : 0 ≤ u3) :
    normV (calculateScatterPosition u1 u2 u3)
      = SCATTER_RADIUS * cbrt u3 := by
  have h : normV (calculateScatterPosition u1 u2 u3)
      = |SCATTER_RADIUS * cbrt (randFloat 0 1 u3)| :=
    normV_polar (SCATTER_RADIUS * cbrt (randFloat 0 1 u3))
      (randFloat 0 (Real.pi * 2) u1) (randFloat 0 Real.pi u2)
  have hu : randFloat 0 1 u3 = u3 := by simp [randFloat]
  rw [h, hu, abs_of_nonneg]
  exact mul_nonneg (by norm_num [SCATTER_RADIUS]) (Real.rpow_nonneg h0 _)

/-- C10: every point produced by calculateScatterPosition from radius draws
in [0, 1] has norm at most SCATTER_RADIUS = 8, and since scatter targets are
assigned exactly once at creation, every ornament produced by
generateParticles and every photo produced by processPhotos keeps a
scatterPos inside that sphere. -/
theorem scatter_radius_bound (u1 u2 u3 : ℝ) (h0 : 0 ≤ u3) (h1 : u3 ≤ 1)
    (count : Nat) (ds : Nat → Draws)
    (hds : ∀ i, 0 ≤ (ds i).u3 ∧ (ds i).u3 ≤ 1) (n : Nat) :
    normV (calculateScatterPosition u1 u2 u3) ≤ SCATTER_RADIUS
    ∧ (∀ p ∈ generateParticles count ds, normV p.scatterPos ≤ SCATTER_RADIUS)
    ∧ (∀ q ∈ processPhotos n ds, normV q.scatterPos ≤ SCATTER_RADIUS) := by
  have bound : ∀ v1 v2 v3 : ℝ, 0 ≤ v3 → v3 ≤ 1 →
      normV (calculateScatterPosition v1 v2 v3) ≤ SCATTER_RADIUS := by
    intro v1 v2 v3 hv0 hv1
    rw [normV_calculateScatterPosition v1 v2 v3 hv0]
    have hc : cbrt v3 ≤ 1 := Real.rpow_le_one hv0 hv1 (by norm_num)
    calc SCATTER_RADIUS * cbrt v3 ≤ SCATTER_RADIUS * 1 := by
          exact mul_le_mul_of_nonneg_left hc (by norm_num [SCATTER_RADIUS])
      _ = SCATTER_RADIUS := mul_one _
  refine ⟨bound u1 u2 u3 h0 h1, ?_, ?_⟩
  · intro p hp
    simp only [generateParticles, List.mem_map, List.mem_range] at hp
    obtain ⟨i, _, rfl⟩ := hp
    rw [show (mkParticle i count (ds i)).scatterPos
        = calculateScatterPosition (ds i).u1 (ds i).u2 (ds i).u3 from rfl]
    exact bound _ _ _ (hds i).1 (hds i).2
  · intro q hq
    simp only [processPhotos, List.mem_map, List.mem_range] at hq
    obtain ⟨i, _, rfl⟩ := hq
    exact bound _ _ _ (hds i).1 (hds i).2

/-- Witness for scatter_radius_bound at the all-zero draw: the sample lands
at the origin, well inside radius 8, and a one-ornament registry built from
zero draws obeys the bound. -/
theorem scatter_radius_bound_witness :
    normV (calculateScatterPosition 0 0 0) ≤ SCATTER_RADIUS
    ∧ ∀ p ∈ generateParticles 1 (fun _ => ⟨0, 0, 0, 0, 0⟩),
        normV p.scatterPos ≤ SCATTER_RADIUS := by
  obtain ⟨h1, h2, _⟩ := scatter_radius_bound 0 0 0 (le_refl 0)
    (by norm_num) 1 (fun _ => ⟨0, 0, 0, 0, 0⟩)
    (fun i => ⟨le_refl 0, by norm_num⟩) 0
  exact ⟨h1, h2⟩

/-- C4 counterexample: calculateScatterPosition does not implement the shell
sampling the spec describes.  At the draw u2 = 1/4 the code takes the polar
angle itself uniform (phi = pi/4, z-direction cosine positive) while the
spec construction takes cos(phi) = 2 * (1/4) - 1 = -1/2 (z nonpositive):
the two points differ in their z coordinate. -/
theorem scatter_sampling_counterexample :
    (calculateScatterPosition 0 (1 / 4) 1).z
      ≠ (scatterPositionSpec 0 8 0 (1 / 4) 1).z := by
  have hcode : (calculateScatterPosition 0 (1 / 4) 1).z
      = 8 * cbrt (0 + 1 * (1 - 0)) * Real.cos (0 + 1 / 4 * (Real.pi - 0)) :=
    rfl
  have hL : 0 < (calculateScatterPosition 0 (1 / 4) 1).z := by
    rw [hcode, show (0 : ℝ) + 1 * (1 - 0) = 1 from by norm_num,
      show (0 : ℝ) + 1 / 4 * (Real.pi - 0) = Real.pi / 4 from by ring,
      show cbrt (1 : ℝ) = 1 from by simp [cbrt], Real.cos_pi_div_four]
    positivity
  have hspec : (scatterPositionSpec 0 8 0 (1 / 4) 1).z
      = cbrt ((0 : ℝ) ^ 3 + 1 * ((8 : ℝ) ^ 3 - 0 ^ 3)) * (2 * (1 / 4) - 1) :=
    rfl
  have hR : (scatterPositionSpec 0 8 0 (1 / 4) 1).z ≤ 0 := by
    rw [hspec, show (2 : ℝ) * (1 / 4) - 1 = -(1 / 2) from by norm_num]
    have hc : 0 ≤ cbrt ((0 : ℝ) ^ 3 + 1 * ((8 : ℝ) ^ 3 - 0 ^ 3)) :=
      Real.rpow_nonneg (by norm_num) _
    calc cbrt ((0 : ℝ) ^ 3 + 1 * ((8 : ℝ) ^ 3 - 0 ^ 3)) * -(1 / 2)
        ≤ cbrt ((0 : ℝ) ^ 3 + 1 * ((8 : ℝ) ^ 3 - 0 ^ 3)) * 0 :=
          mul_le_mul_of_nonneg_left (by norm_num) hc
      _ = 0 := mul_zero _
  intro h
  rw [h] at hL
  linarith

/-- C4 amended: calculateScatterPosition draws theta uniform but takes phi
itself uniform in [0, pi] (cos phi is not uniform, favoring the poles) and
draws its radius as 8 times the cube root of a uniform draw — volume-uniform
over the full ball of radius 8, with no inner shell radius; the variant in
Particle.calculatePositions draws cos(phi) uniform in [-1, 1] as the spec
says, but draws its radius linearly (not by cube-root transform) into the
shell [8, 20]. -/
theorem scatter_sampling_amended (u1 u2 u3 sU thetaU phiU : ℝ)
    (h3 : 0 ≤ u3) (hp0 : 0 ≤ phiU) (hp1 : phiU ≤ 1)
    (hs0 : 0 ≤ sU) (hs1 : sU ≤ 1) :
    normV (calculateScatterPosition u1 u2 u3) = 8 * cbrt u3
    ∧ (calcPosScatter false sU thetaU phiU).z = (8 + sU * 12) * (2 * phiU - 1)
    ∧ normV (calcPosScatter false sU thetaU phiU) = 8 + sU * 12
    ∧ 8 ≤ 8 + sU * 12 ∧ 8 + sU * 12 ≤ 20 := by
  refine ⟨normV_calculateScatterPosition u1 u2 u3 h3, ?_, ?_, by nlinarith,
    by nlinarith⟩
  · rw [show (calcPosScatter false sU thetaU phiU).z
        = (8 + sU * 12) * Real.cos (Real.arccos (2 * phiU - 1)) from rfl,
      Real.cos_arccos (by linarith) (by linarith)]
  · have h : normV (calcPosScatter false sU thetaU phiU) = |8 + sU * 12| :=
      normV_polar (8 + sU * 12) (thetaU * (Real.pi * 2))
        (Real.arccos (2 * phiU - 1))
    rw [h, abs_of_nonneg (by nlinarith)]

/-- Witness for scatter_sampling_amended at u3 = 1/8 and phiU = 1/2, sU = 1:
the ball sample has norm 8 * cbrt (1/8) and the variant sample sits on the
outer shell radius 20 with z = 0. -/
theorem scatter_sampling_amended_witness :
    normV (calculateScatterPosition 0 0 (1 / 8)) = 8 * cbrt (1 / 8)
    ∧ (calcPosScatter false 1 0 (1 / 2)).z = (8 + 1 * 12) * (2 * (1 / 2) - 1)
    ∧ normV (calcPosScatter false 1 0 (1 / 2)) = 8 + 1 * 12 := by
  obtain ⟨h1, h2, h3, _, _⟩ := scatter_sampling_amended 0 0 (1 / 8) 1 0 (1 / 2)
    (by norm_num) (by norm_num) (by norm_num) (by norm_num) (by norm_num)
  exact ⟨h1, h2, h3⟩

/-- C5 counterexample: in FOCUS mode a non-focused particle does NOT keep
tumbling.  A particle with spin rate (1,0,0) and rotation (0,0,0) ticked
with dt = 1 in FOCUS while not being the target keeps rotation (0,0,0), not
the (1,0,0) the claim predicts. -/
theorem focus_rotation_counterexample :
    (Particle.update ⟨"BOX", false, ⟨0, 0, 0⟩, ⟨0, 0, 0⟩, 1, ⟨1, 0, 0⟩, 0⟩
        ⟨⟨0, 0, 0⟩, ⟨0, 0, 0⟩, ⟨1, 1, 1⟩⟩ 1 .FOCUS false ⟨0, 0, 0⟩ ⟨9, 9, 9⟩
        0).rot
      ≠ ⟨0 + 1 * 1, 0 + 0 * 1, 0 + 0 * 1⟩ := by
  rw [show (Particle.update ⟨"BOX", false, ⟨0, 0, 0⟩, ⟨0, 0, 0⟩, 1, ⟨1, 0, 0⟩,
      0⟩ ⟨⟨0, 0, 0⟩, ⟨0, 0, 0⟩, ⟨1, 1, 1⟩⟩ 1 .FOCUS false ⟨0, 0, 0⟩
      ⟨9, 9, 9⟩ 0).rot = (⟨0, 0, 0⟩ : Vec3) from rfl]
  intro hc
  rw [Vec3.mk.injEq] at hc
  have hx := hc.1
  norm_num at hx

/-- C5 amended: per tick the rotation advances by spinSpeed * dt only while
mode is SCATTER; while TREE the X and Z components decay toward zero by
exponential interpolation at factor dt and Y advances at the constant rate
0.5; in FOCUS the rotation of a non-focused particle is left unchanged (it does
not tumble), and the focused particle is oriented by the look-at toward the
viewpoint instead of free-spinning. -/
theorem rotation_update_amended (p : Particle) (tr : Transform) (dt : ℝ)
    (isTarget : Bool) (fp la : Vec3) (e : ℝ) :
    (Particle.update p tr dt .SCATTER isTarget fp la e).rot
        = ⟨tr.rot.x + p.spinSpeed.x * dt, tr.rot.y + p.spinSpeed.y * dt,
            tr.rot.z + p.spinSpeed.z * dt⟩
    ∧ (Particle.update p tr dt .TREE isTarget fp la e).rot
        = ⟨lerp1 tr.rot.x 0 dt, tr.rot.y + 0.5 * dt, lerp1 tr.rot.z 0 dt⟩
    ∧ (Particle.update p tr dt .FOCUS false fp la e).rot = tr.rot
    ∧ (Particle.update p tr dt .FOCUS true fp la e).rot = la :=
  ⟨rfl, rfl, rfl, rfl⟩

/-- C8 counterexample: with no focus target, FOCUS does not treat a particle
exactly as SCATTER does — the rotation halves differ: SCATTER tumbles by
spinSpeed * dt while FOCUS leaves the rotation alone. -/
theorem focus_vs_scatter_counterexample :
    (Particle.update ⟨"GOLD_BOX", false, ⟨0, 0, 0⟩, ⟨1, 2, 3⟩, 1, ⟨0, 0, 2⟩,
        0⟩ ⟨⟨0, 0, 0⟩, ⟨0, 0, 0⟩, ⟨1, 1, 1⟩⟩ 1 .FOCUS false ⟨0, 0, 0⟩
        ⟨0, 0, 0⟩ 0).rot
      ≠ (Particle.update ⟨"GOLD_BOX", false, ⟨0, 0, 0⟩, ⟨1, 2, 3⟩, 1,
          ⟨0, 0, 2⟩, 0⟩ ⟨⟨0, 0, 0⟩, ⟨0, 0, 0⟩, ⟨1, 1, 1⟩⟩ 1 .SCATTER false
          ⟨0, 0, 0⟩ ⟨0, 0, 0⟩ 0).rot := by
  rw [show (Particle.update ⟨"GOLD_BOX", false, ⟨0, 0, 0⟩, ⟨1, 2, 3⟩, 1,
      ⟨0, 0, 2⟩, 0⟩ ⟨⟨0, 0, 0⟩, ⟨0, 0, 0⟩, ⟨1, 1, 1⟩⟩ 1 .FOCUS false
      ⟨0, 0, 0⟩ ⟨0, 0, 0⟩ 0).rot = (⟨0, 0, 0⟩ : Vec3) from rfl,
    show (Particle.update ⟨"GOLD_BOX", false, ⟨0, 0, 0⟩, ⟨1, 2, 3⟩, 1,
      ⟨0, 0, 2⟩, 0⟩ ⟨⟨0, 0, 0⟩, ⟨0, 0, 0⟩, ⟨1, 1, 1⟩⟩ 1 .SCATTER false
      ⟨0, 0, 0⟩ ⟨0, 0, 0⟩ 0).rot = (⟨0 + 0 * 1, 0 + 0 * 1, 0 + 2 * 1⟩ : Vec3)
      from rfl]
  intro hc
  rw [Vec3.mk.injEq] at hc
  have hz := hc.2.2
  norm_num at hz

/-- C8 amended: a PINCH with zero PHOTO particles in the registry moves the
mode to FOCUS while the focus target stays unset and nothing fails; every
particle then takes the SCATTER position target at the SCATTER easing rate
(no particle zooms), but unlike SCATTER its rotation is frozen, and while
dust keeps its SCATTER pulse, a non-dust particle eases its scale toward
0.8 * baseScale instead of the SCATTER target. -/
theorem focus_no_photos_amended (s : GState) (k : Nat) (p : Particle)
    (tr : Transform) (dt : ℝ) (fp la : Vec3) (e : ℝ)
    (hs : s.mode ≠ .FOCUS) (ht : s.focusTarget = none) :
    stepMode [] k s ⟨true, .PINCH⟩ = ⟨.FOCUS, none⟩
    ∧ (Particle.update p tr dt .FOCUS false fp la e).pos
        = (Particle.update p tr dt .SCATTER false fp la e).pos
    ∧ (Particle.update p tr dt .FOCUS false fp la e).pos
        = lerpVec tr.pos p.posScatter (2 * dt)
    ∧ (Particle.update p tr dt .FOCUS false fp la e).rot = tr.rot
    ∧ (p.isDust = true →
        (Particle.update p tr dt .FOCUS false fp la e).scl
          = (Particle.update p tr dt .SCATTER false fp la e).scl)
    ∧ (p.isDust = false →
        (Particle.update p tr dt .FOCUS false fp la e).scl
          = lerpVec tr.scl
              ⟨p.baseScale * 0.8, p.baseScale * 0.8, p.baseScale * 0.8⟩
              (4 * dt)) := by
  refine ⟨by simp [stepMode, hs, ht], rfl, rfl, rfl, ?_, ?_⟩
  · intro hd
    simp [Particle.update, hd]
  · intro hd
    simp [Particle.update, hd]

/-- Witness for focus_no_photos_amended at a concrete non-dust gold box and
the initial TREE state: the PINCH lands in FOCUS with no target and the
scale of the particle eases toward 0.8 of its base scale 1. -/
theorem focus_no_photos_witness :
    stepMode [] 0 ⟨.TREE, none⟩ ⟨true, .PINCH⟩ = ⟨.FOCUS, none⟩
    ∧ (Particle.update ⟨"GOLD_SPHERE", false, ⟨0, 0, 0⟩, ⟨4, 5, 6⟩, 1,
        ⟨0, 1, 0⟩, 0⟩ ⟨⟨0, 0, 0⟩, ⟨0, 0, 0⟩, ⟨1, 1, 1⟩⟩ 1 .FOCUS false
        ⟨0, 0, 0⟩ ⟨0, 0, 0⟩ 0).scl
      = lerpVec ⟨1, 1, 1⟩ ⟨1 * 0.8, 1 * 0.8, 1 * 0.8⟩ (4 * 1) := by
  obtain ⟨h1, _, _, _, _, h6⟩ := focus_no_photos_amended ⟨.TREE, none⟩ 0
    ⟨"GOLD_SPHERE", false, ⟨0, 0, 0⟩, ⟨4, 5, 6⟩, 1, ⟨0, 1, 0⟩, 0⟩
    ⟨⟨0, 0, 0⟩, ⟨0, 0, 0⟩, ⟨1, 1, 1⟩⟩ 1 ⟨0, 0, 0⟩ ⟨0, 0, 0⟩ 0
    (by simp) rfl
  exact ⟨h1, h6 rfl⟩

/-- C6 counterexample: the easing step does not shrink the distance for
every dt > 0.  At the non-focused rate lerpSpeed = 2 and dt = 2 the factor
is 2 * 2 = 4 and one SCATTER tick moves a particle sitting at distance 1
from its scatter target to distance 3 — the distance strictly increases. -/
theorem lerp_overshoot_counterexample :
    distV ((Particle.update ⟨"BOX", false, ⟨0, 0, 0⟩, ⟨0, 0, 0⟩, 1,
        ⟨0, 0, 0⟩, 0⟩ ⟨⟨1, 0, 0⟩, ⟨0, 0, 0⟩, ⟨1, 1, 1⟩⟩ 2 .SCATTER false
        ⟨0, 0, 0⟩ ⟨0, 0, 0⟩ 0).pos) ⟨0, 0, 0⟩
      > distV ⟨1, 0, 0⟩ ⟨0, 0, 0⟩ := by
  have hpos : (Particle.update ⟨"BOX", false, ⟨0, 0, 0⟩, ⟨0, 0, 0⟩, 1,
      ⟨0, 0, 0⟩, 0⟩ ⟨⟨1, 0, 0⟩, ⟨0, 0, 0⟩, ⟨1, 1, 1⟩⟩ 2 .SCATTER false
      ⟨0, 0, 0⟩ ⟨0, 0, 0⟩ 0).pos
      = lerpVec ⟨1, 0, 0⟩ ⟨0, 0, 0⟩ (2 * 2) := rfl
  have hbase : distV (⟨1, 0, 0⟩ : Vec3) ⟨0, 0, 0⟩ = 1 := by
    rw [distV]
    norm_num
  rw [hpos, distV_lerpVec, hbase,
    show |1 - 2 * 2| = |(-(3 : ℝ))| from by norm_num, abs_neg,
    abs_of_nonneg (by norm_num : (0 : ℝ) ≤ 3)]
  norm_num

/-- C6 amended: with mode, targets and dt held constant, and the combined
easing factor alpha = lerpSpeed * dt strictly between 0 and 2, each tick
multiplies the distance to the stationary target by |1 - alpha| < 1, so the
distance never increases tick over tick and repeated ticking brings the
position arbitrarily close to the target; one SCATTER tick of
Particle.update is exactly such an easing step with alpha = 2 * dt (the
claim fails without the alpha < 2 bound, e.g. at dt = 2). -/
theorem animator_convergence_amended (target p0 : Vec3) (a : ℝ)
    (h0 : 0 < a) (h2 : a < 2) :
    (∀ (pt : Particle) (tr : Transform) (dt : ℝ) (fp la : Vec3) (e : ℝ),
      (Particle.update pt tr dt .SCATTER false fp la e).pos
        = lerpVec tr.pos pt.posScatter (2 * dt))
    ∧ (∀ n, distV (posIter target a (n + 1) p0) target
        ≤ distV (posIter target a n p0) target)
    ∧ (∀ ε, 0 < ε → ∃ n, distV (posIter target a n p0) target < ε) := by
  have habs : |1 - a| < 1 := abs_lt.mpr ⟨by linarith, by linarith⟩
  have habs0 : 0 ≤ |1 - a| := abs_nonneg _
  refine ⟨fun pt tr dt fp la e => rfl, ?_, ?_⟩
  · intro n
    rw [distV_posIter, distV_posIter, pow_succ]
    have hd0 : 0 ≤ distV p0 target := distV_nonneg _ _
    have hfac : |1 - a| ^ n * |1 - a| ≤ |1 - a| ^ n * 1 :=
      mul_le_mul_of_nonneg_left (le_of_lt habs) (pow_nonneg habs0 n)
    calc |1 - a| ^ n * |1 - a| * distV p0 target
        ≤ |1 - a| ^ n * 1 * distV p0 target :=
          mul_le_mul_of_nonneg_right hfac hd0
      _ = |1 - a| ^ n * distV p0 target := by ring
  · intro ε hε
    rcases eq_or_lt_of_le (distV_nonneg p0 target) with hd | hd
    · exact ⟨0, by rw [distV_posIter, pow_zero, one_mul, ← hd]; exact hε⟩
    · obtain ⟨n, hn⟩ := exists_pow_lt_of_lt_one (div_pos hε hd) habs
      refine ⟨n, ?_⟩
      rw [distV_posIter]
      calc |1 - a| ^ n * distV p0 target
          < ε / distV p0 target * distV p0 target :=
            mul_lt_mul_of_pos_right hn hd
        _ = ε := div_mul_cancel₀ ε (ne_of_gt hd)

/-- Witness for animator_convergence_amended at alpha = 1/2 from distance 1:
the first tick does not increase the distance and some tick count brings the
particle within 1/100 of its target. -/
theorem animator_convergence_witness :
    distV (posIter ⟨0, 0, 0⟩ (1 / 2) 1 ⟨1, 0, 0⟩) ⟨0, 0, 0⟩
      ≤ distV (posIter ⟨0, 0, 0⟩ (1 / 2) 0 ⟨1, 0, 0⟩) ⟨0, 0, 0⟩
    ∧ ∃ n, distV (posIter ⟨0, 0, 0⟩ (1 / 2) n ⟨1, 0, 0⟩) ⟨0, 0, 0⟩
        < 1 / 100 := by
  obtain ⟨_, hmono, hconv⟩ := animator_convergence_amended ⟨0, 0, 0⟩ ⟨1, 0, 0⟩
    (1 / 2) (by norm_num) (by norm_num)
  exact ⟨hmono 0, hconv (1 / 100) (by norm_num)⟩

end

end TreeTree
